import Mathlib

/-!
Shallow embedding of the node/queue coordination layer of the lavalink-rs
client library (`src/lib.rs`, `src/builders.rs`).

The per-guild playback state lives in a concurrent map `nodes : u64 → Node`
and a concurrent set `loops : set u64`; the whole client inner state is
behind one mutex, so every public operation below is modelled as one atomic
state transition.  The connection handle (`socket_sender`) is modelled by
its presence (`Option Unit`); the success of an individual channel send is
an external circumstance and is passed as a `sendOk : Bool` parameter where
the code inspects it.  DashMap's `try_get_mut` can also fail due to
contention; that circumstance is the `locked : Bool` parameter of the
operations that use `try_get_mut`.
-/

/-- A track handle; the `track` field is the encoded track string
(`Track.track` in `src/model`, used as `self.track.track` in the source). -/
structure Track where
  track : String
  deriving DecidableEq, Repr

/-- Modelled from the spec: a queue item (`TrackQueue` in `src/model`, the
repository's model module is not under `src/`).  Fields are exactly the ones
constructed in `PlayParameters::queue` (`src/builders.rs` lines 206-215). -/
structure TrackQueue where
  track : Track
  start_time : Nat
  end_time : Option Nat
  requester : Option Nat
  deriving DecidableEq, Repr

/-- Modelled from the spec: per-guild playback state (`Node` in `src/model`);
the fields are the ones read and written by `src/lib.rs` and
`src/builders.rs`: `now_playing`, `queue`, `is_paused`, `is_on_loops`. -/
structure Node where
  now_playing : Option TrackQueue
  queue : List TrackQueue
  is_paused : Bool
  is_on_loops : Bool
  deriving DecidableEq, Repr

/-- Modelled from the spec: `Node::default()` — empty queue, nothing
playing, both flags false ("creates a default one"). -/
def Node.default : Node :=
  { now_playing := none, queue := [], is_paused := false, is_on_loops := false }

/-- The payload of a Play command (`crate::model::Play`), as constructed in
`PlayParameters::start`/`queue` (`src/builders.rs`). -/
structure Play where
  track : String
  no_replace : Bool
  start_time : Nat
  end_time : Option Nat
  deriving DecidableEq, Repr

/-- The inner `event` object of a VoiceUpdate payload
(`crate::model::Event`), as constructed in `LavalinkClient::create_session`
(`src/lib.rs` lines 444-448). -/
structure VoiceEvent where
  token : String
  endpoint : String
  guild_id : String
  deriving DecidableEq, Repr

/-- The VoiceUpdate payload (`crate::model::VoiceUpdate`). -/
structure VoiceUpdatePayload where
  session_id : String
  event : VoiceEvent
  deriving DecidableEq, Repr

/-- Modelled from the spec: the outbound command opcodes
(`crate::model::SendOpcode`; the model module is not under `src/`).  The
Equalizer payload (floating-point gains) is irrelevant to every claim and
is not carried. -/
inductive SendOpcode where
  | Play (payload : Play)
  | Stop
  | Pause (pause : Bool)
  | Seek (position : Nat)
  | Volume (volume : Nat)
  | Equalizer
  | Destroy
  | VoiceUpdate (payload : VoiceUpdatePayload)
  deriving DecidableEq, Repr

/-- Modelled from the spec: the error taxonomy (`crate::error::LavalinkError`;
the error module is not under `src/`).  Variants are the ones named in
`src/lib.rs` and `src/builders.rs`. -/
inductive LavalinkError where
  | MissingLavalinkSocket
  | NoSessionPresent
  | MissingConnectionField (field : String)
  | ChannelSendError
  deriving DecidableEq, Repr

/-- The client inner state (`LavalinkClientInner`, `src/lib.rs` lines
102-124), restricted to the fields the coordination layer touches: the
replaceable socket sender (modelled by presence), the Node Registry
`nodes : DashMap<u64, Node>` and the Active-Loop Set
`loops : DashSet<u64>`. -/
structure LavalinkClientInner where
  socket_sender : Option Unit
  nodes : Nat → Option Node
  loops : Nat → Bool

/-- The voice connection info consumed by `create_session`
(`ConnectionInfo` of the discord gateway; only the four fields read in
`src/lib.rs` lines 417-436). -/
structure ConnectionInfo where
  guild_id : Option Nat
  token : Option String
  endpoint : Option String
  session_id : Option String

/-- The songbird connection info consumed by `create_session_with_songbird`
(all fields present, `src/lib.rs` lines 375-384). -/
structure SongbirdConnectionInfo where
  guild_id : Nat
  token : String
  endpoint : String
  session_id : String

/-- Endpoint normalisation in `create_session` (`src/lib.rs` lines 438-442):
any leading `wss://` (six characters) is removed.  Stated over the
character list so that it evaluates by kernel reduction. -/
def stripWss (endpoint : String) : String :=
  if "wss://".data.isPrefixOf endpoint.data then String.mk (endpoint.data.drop 6)
  else endpoint

/-- `LavalinkClient::create_session` (`src/lib.rs` lines 416-481): validates
the four connection fields in order, requires an attached socket, sends a
VoiceUpdate command, then — as literally written at lines 475-478 — inserts
a default Node only when `nodes.contains_key(&guild_id)` already holds.
On success it returns the new state and the command that was sent. -/
def LavalinkClient.create_session (s : LavalinkClientInner)
    (connection_info : ConnectionInfo) :
    Except LavalinkError (LavalinkClientInner × SendOpcode) :=
  match connection_info.token with
  | none => .error (.MissingConnectionField "token")
  | some token =>
  match connection_info.endpoint with
  | none => .error (.MissingConnectionField "endpoint")
  | some endpoint =>
  match connection_info.guild_id with
  | none => .error (.MissingConnectionField "guild_id")
  | some guild_id =>
  match connection_info.session_id with
  | none => .error (.MissingConnectionField "session_id")
  | some session_id =>
  let endpoint := stripWss endpoint
  let payload : VoiceUpdatePayload :=
    { session_id := session_id
      event := { token := token, endpoint := endpoint, guild_id := toString guild_id } }
  match s.socket_sender with
  | none => .error .MissingLavalinkSocket
  | some _ =>
    let nodes' :=
      if (s.nodes guild_id).isSome then
        Function.update s.nodes guild_id (some Node.default)
      else
        s.nodes
    .ok ({ s with nodes := nodes' }, SendOpcode.VoiceUpdate payload)

/-- `LavalinkClient::create_session_with_songbird` (`src/lib.rs` lines
371-414): requires an attached socket, sends a VoiceUpdate command, and
inserts a default Node when `!nodes.contains_key(&guild_id)`. -/
def LavalinkClient.create_session_with_songbird (s : LavalinkClientInner)
    (connection_info : SongbirdConnectionInfo) :
    Except LavalinkError (LavalinkClientInner × SendOpcode) :=
  let payload : VoiceUpdatePayload :=
    { session_id := connection_info.session_id
      event := { token := connection_info.token
                 endpoint := connection_info.endpoint
                 guild_id := toString connection_info.guild_id } }
  match s.socket_sender with
  | none => .error .MissingLavalinkSocket
  | some _ =>
    let nodes' :=
      if !(s.nodes connection_info.guild_id).isSome then
        Function.update s.nodes connection_info.guild_id (some Node.default)
      else
        s.nodes
    .ok ({ s with nodes := nodes' }, SendOpcode.VoiceUpdate payload)

/-- `LavalinkClient::skip` (`src/lib.rs` lines 584-598): a non-blocking
`try_get_mut` on the guild's Node; when present, clears `now_playing` and
pops the queue head (`queue.remove(0)`) if the queue is non-empty; when the
entry is absent or contended (`locked`), returns `none` and leaves the
state unchanged. -/
def LavalinkClient.skip (locked : Bool) (s : LavalinkClientInner)
    (guild_id : Nat) : Option TrackQueue × LavalinkClientInner :=
  if locked then (none, s)
  else
    match s.nodes guild_id with
    | some node =>
      match node.queue with
      | [] =>
        (none,
         { s with nodes := (Function.update s.nodes guild_id
             (some { node with now_playing := none })) })
      | t :: rest =>
        (some t,
         { s with nodes := (Function.update s.nodes guild_id
             (some { node with now_playing := none, queue := rest })) })
    | none => (none, s)

/-- `LavalinkClient::destroy` (`src/lib.rs` lines 518-553): requires an
attached socket; if a Node exists for the guild, clears `now_playing` and
removes the queue head when the queue is non-empty; then sends a Destroy
command.  Nothing else (registry keys, the loop set, the rest of the
queue, the other Node fields) is touched. -/
def LavalinkClient.destroy (s : LavalinkClientInner) (guild_id : Nat) :
    Except LavalinkError (LavalinkClientInner × SendOpcode) :=
  match s.socket_sender with
  | none => .error .MissingLavalinkSocket
  | some _ =>
    let s' :=
      match s.nodes guild_id with
      | some node =>
        { s with nodes := (Function.update s.nodes guild_id
            (some { node with
                      now_playing := none
                      queue := if node.queue.isEmpty then node.queue
                               else node.queue.tail })) }
      | none => s
    .ok (s', SendOpcode.Destroy)

/-- `LavalinkClient::volume` (`src/lib.rs` lines 692-720): clamps the input
with `max(min(volume, 1000), 0)`, requires an attached socket, and sends a
Volume command carrying the clamped value.  The state is unchanged. -/
def LavalinkClient.volume (s : LavalinkClientInner) (guild_id : Nat)
    (volume : Nat) : Except LavalinkError (LavalinkClientInner × SendOpcode) :=
  let good_volume := max (min volume 1000) 0
  match s.socket_sender with
  | none => .error .MissingLavalinkSocket
  | some _ => .ok (s, SendOpcode.Volume good_volume)

/-- The play request builder (`PlayParameters`, `src/builders.rs` lines
154-163), without the client handle (the state is passed explicitly). -/
structure PlayParameters where
  track : Track
  replace : Bool
  start : Nat
  finish : Nat
  guild_id : Nat
  requester : Option Nat

/-- `PlayParameters::to_track_queue` (`src/builders.rs` lines 310-321). -/
def PlayParameters.to_track_queue (p : PlayParameters) : TrackQueue :=
  { track := p.track
    start_time := p.start
    end_time := if p.finish = 0 then none else some p.finish
    requester := p.requester }

/-- How a `PlayParameters::queue` call ended: `Ok`, a returned error, or a
panic (the `.unwrap()` on a missing map entry at `src/builders.rs` line
302). -/
inductive QueueResult where
  | ok
  | err (e : LavalinkError)
  | panicked
  deriving DecidableEq, Repr

/-- The full outcome of a `PlayParameters::queue` call: how it returned,
the state it left behind, and whether it spawned a dispatcher task. -/
structure QueueOutcome where
  result : QueueResult
  state : LavalinkClientInner
  spawned : Bool

/-- `PlayParameters::queue` (`src/builders.rs` lines 205-306), the enqueue
operation.  With the guild not in `loops`: a contended or absent Node entry
returns `NoSessionPresent`; a present Node with `is_on_loops` already true
just appends; otherwise it sets `is_on_loops`, inserts the guild into
`loops`, appends the item and spawns the dispatcher task.  With the guild
already in `loops`: `nodes.get_mut(..).unwrap()` appends — and panics when
the Node is absent. -/
def PlayParameters.queue (p : PlayParameters) (locked : Bool)
    (s : LavalinkClientInner) : QueueOutcome :=
  let track : TrackQueue :=
    { track := p.track
      start_time := p.start
      end_time := if p.finish = 0 then none else some p.finish
      requester := p.requester }
  if !(s.loops p.guild_id) then
    match if locked then none else s.nodes p.guild_id with
    | some node =>
      if node.is_on_loops then
        { result := .ok
          state := { s with nodes := (Function.update s.nodes p.guild_id
              (some { node with queue := node.queue ++ [track] })) }
          spawned := false }
      else
        { result := .ok
          state := { s with
            nodes := (Function.update s.nodes p.guild_id
              (some { node with is_on_loops := true
                                queue := node.queue ++ [track] }))
            loops := Function.update s.loops p.guild_id true }
          spawned := true }
    | none => { result := .err .NoSessionPresent, state := s, spawned := false }
  else
    match s.nodes p.guild_id with
    | some node =>
      { result := .ok
        state := { s with nodes := (Function.update s.nodes p.guild_id
            (some { node with queue := node.queue ++ [track] })) }
        spawned := false }
    | none => { result := .panicked, state := s, spawned := false }

/-- The observable outcome of one dispatcher wake: the state left behind,
whether the task is still alive (it `break`s when the Node is gone),
the Play payload it constructed and tried to dispatch (if any), and
whether a send failure was logged. -/
structure TickResult where
  state : LavalinkClientInner
  alive : Bool
  issued : Option Play
  send_error : Bool

/-- One iteration of the dispatcher loop spawned by `PlayParameters::queue`
(`src/builders.rs` lines 247-297).  The wake is an
`if let TryResult::Present(..) = try_get_mut(..)` with an `else break`:
both an absent Node and a contended entry (`locked = true`) terminate the
task.  On a successful access, when the queue is non-empty and
`now_playing` is none, the head is read (not removed), `now_playing` is
set to it, a Play payload is built and the send is attempted; a missing
socket or a failed send (`sendOk = false`) is only logged.  Otherwise the
wake does nothing. -/
def dispatcher_tick (locked sendOk : Bool) (s : LavalinkClientInner)
    (guild_id : Nat) : TickResult :=
  match if locked then none else s.nodes guild_id with
  | none => { state := s, alive := false, issued := none, send_error := false }
  | some node =>
    match node.queue.head?, node.now_playing with
    | some track, none =>
      let payload : Play :=
        { track := track.track.track
          no_replace := false
          start_time := track.start_time
          end_time := track.end_time }
      { state := { s with nodes := (Function.update s.nodes guild_id
            (some { node with now_playing := some track })) }
        alive := true
        issued := some payload
        send_error := !s.socket_sender.isSome || !sendOk }
    | _, _ => { state := s, alive := true, issued := none, send_error := false }

/-- Modelled from the spec: the Event Reactor's reaction to TrackEnd /
TrackException / TrackStuck for a guild (the event loop module is not under
`src/`): clear `now_playing` for that guild's Node, idempotent when the
Node is absent. -/
def clear_now_playing (s : LavalinkClientInner) (guild_id : Nat) :
    LavalinkClientInner :=
  match s.nodes guild_id with
  | some node =>
    { s with nodes := (Function.update s.nodes guild_id
        (some { node with now_playing := none })) }
  | none => s

/-!
A trace semantics for the whole coordination layer.  Every public operation
holds the single `inner` mutex for its critical section (in particular
`PlayParameters::queue` holds it from the `loops.contains` check through
the `loops.insert` and the queue push, dropping it only just before
`tokio::spawn`), so an interleaved execution is a sequence of these atomic
steps.  `SysState` pairs the client state with the number of live
dispatcher tasks per guild, so that the one-dispatcher-per-guild claim can
be stated and proved over arbitrary traces.
-/

/-- One atomic step of the system: a caller API call, one wake of a live
dispatcher task (which also covers the task observing a missing Node, or a
contended entry, and breaking), an external Node-registry removal
(`nodes().remove`, as in the `destroy` doc example in `src/lib.rs`), or
the Event Reactor clearing `now_playing` / replacing the socket sender. -/
inductive Op where
  | enqueue (locked : Bool) (p : PlayParameters)
  | skipOp (locked : Bool) (g : Nat)
  | destroyOp (g : Nat)
  | tick (locked sendOk : Bool) (g : Nat)
  | createSession (ci : ConnectionInfo)
  | createSessionSongbird (ci : SongbirdConnectionInfo)
  | trackEnd (g : Nat)
  | removeNode (g : Nat)
  | setSocket (sock : Option Unit)

/-- The client state together with the number of live dispatcher tasks per
guild. -/
structure SysState where
  client : LavalinkClientInner
  alive : Nat → Nat

/-- Keep the old state when an API call returns an error (errors are
returned before, or without, mutating anything — except `destroy`, which
never errors after the socket check). -/
def applyExcept (s : LavalinkClientInner)
    (r : Except LavalinkError (LavalinkClientInner × SendOpcode)) :
    LavalinkClientInner :=
  match r with
  | .ok (s', _) => s'
  | .error _ => s

/-- The transition function of the trace semantics.  A `tick` is only
meaningful for a guild with a live dispatcher (`alive g ≠ 0`); a tick that
finds the Node absent, or finds the entry contended, is the dispatcher
breaking, which decrements the live count. -/
def SysState.step (st : SysState) (op : Op) : SysState :=
  match op with
  | .enqueue locked p =>
    let o := p.queue locked st.client
    { client := o.state
      alive := if o.spawned then
          Function.update st.alive p.guild_id (st.alive p.guild_id + 1)
        else st.alive }
  | .skipOp locked g =>
    { st with client := (LavalinkClient.skip locked st.client g).2 }
  | .destroyOp g =>
    { st with client := applyExcept st.client (LavalinkClient.destroy st.client g) }
  | .tick locked sendOk g =>
    if st.alive g = 0 then st
    else
      let r := dispatcher_tick locked sendOk st.client g
      { client := r.state
        alive := if r.alive then st.alive
                 else Function.update st.alive g (st.alive g - 1) }
  | .createSession ci =>
    { st with client := applyExcept st.client (LavalinkClient.create_session st.client ci) }
  | .createSessionSongbird ci =>
    { st with client :=
        applyExcept st.client (LavalinkClient.create_session_with_songbird st.client ci) }
  | .trackEnd g =>
    { st with client := clear_now_playing st.client g }
  | .removeNode g =>
    { st with client := { st.client with
        nodes := Function.update st.client.nodes g none } }
  | .setSocket sock =>
    { st with client := { st.client with socket_sender := sock } }

/-- The initial system state: empty registry, empty loop set, no dispatcher
tasks, socket attached. -/
def SysState.init : SysState :=
  { client := { socket_sender := some (), nodes := fun _ => none, loops := fun _ => false }
    alive := fun _ => 0 }

/-- Run a trace of atomic steps from the initial state. -/
def SysState.run (ops : List Op) : SysState :=
  ops.foldl SysState.step SysState.init

/-- How many steps of the trace, executed from `st`, spawn a dispatcher
task for guild `g`. -/
def spawnCount (st : SysState) (ops : List Op) (g : Nat) : Nat :=
  match ops with
  | [] => 0
  | op :: rest =>
    (match op with
     | .enqueue locked p =>
       if p.guild_id = g ∧ (p.queue locked st.client).spawned = true then 1 else 0
     | _ => 0) + spawnCount (st.step op) rest g

/-!
Concrete inputs used by the witnesses and counterexamples.
-/

/-- A concrete track. -/
def trackA : Track := { track := "trackA" }

/-- A second concrete track. -/
def trackB : Track := { track := "trackB" }

/-- A concrete play request for guild 1 with `trackA`. -/
def ppA : PlayParameters :=
  { track := trackA, replace := false, start := 0, finish := 0
    guild_id := 1, requester := none }

/-- A concrete play request for guild 1 with `trackB`. -/
def ppB : PlayParameters :=
  { track := trackB, replace := false, start := 0, finish := 0
    guild_id := 1, requester := none }

/-- The queue item `ppA` enqueues. -/
def tqA : TrackQueue := ppA.to_track_queue

/-- The queue item `ppB` enqueues. -/
def tqB : TrackQueue := ppB.to_track_queue

/-- A state with an attached socket and an empty registry. -/
def emptyState : LavalinkClientInner :=
  { socket_sender := some (), nodes := fun _ => none, loops := fun _ => false }

/-- A state right after a session was established for guild 1: a default
Node in the registry, guild 1 not yet in the loop set. -/
def sessionState : LavalinkClientInner :=
  { socket_sender := some ()
    nodes := fun g => if g = 1 then some Node.default else none
    loops := fun _ => false }

/-- A Node whose dispatcher is running, with one queued item and nothing
playing. -/
def nodeQ : Node :=
  { now_playing := none, queue := [tqA], is_paused := false, is_on_loops := true }

/-- A state where guild 1 has `nodeQ` and a live dispatcher, but no socket
sender is attached — the dispatcher's send will fail. -/
def noSocketState : LavalinkClientInner :=
  { socket_sender := none
    nodes := fun g => if g = 1 then some nodeQ else none
    loops := fun g => g == 1 }

/-- A state where guild 1 is in the loop set but has no Node — the state
left behind by removing the Node from the registry without removing the
guild from the loop set. -/
def danglingLoopState : LavalinkClientInner :=
  { socket_sender := some ()
    nodes := fun _ => none
    loops := fun g => g == 1 }

/-- A complete connection info for guild 1. -/
def ciA : ConnectionInfo :=
  { guild_id := some 1, token := some "tok", endpoint := some "ep.example"
    session_id := some "sess" }

/-- A state with an attached socket where guild 1 has `nodeQ` and is in the
loop set — the state right after the first enqueue. -/
def sessionQState : LavalinkClientInner :=
  { socket_sender := some ()
    nodes := fun g => if g = 1 then some nodeQ else none
    loops := fun g => g == 1 }

/-- A concrete songbird connection info for guild 1. -/
def sciA : SongbirdConnectionInfo :=
  { guild_id := 1, token := "tok", endpoint := "ep.example", session_id := "sess" }

/-- The trace refuting the claim that a flagged Node implies exactly one
live dispatcher: establish a session for guild 1, enqueue (spawning the
dispatcher), then one contended wake — the dispatcher breaks while the
Node keeps `is_on_loops = true`. -/
def cexTrace : List Op :=
  [Op.createSessionSongbird sciA, Op.enqueue false ppA, Op.tick true true 1]

/-- A transition preserves the loop-accounting core when it keeps the
Active-Loop Set intact and no surviving Node gains an `is_on_loops` flag it
did not have (a Node may be replaced by one whose flag is false). -/
def preservesLoopCore (s s' : LavalinkClientInner) : Prop :=
  s'.loops = s.loops ∧
  ∀ g n', s'.nodes g = some n' →
    n'.is_on_loops = false ∨
    ∃ n, s.nodes g = some n ∧ n'.is_on_loops = n.is_on_loops

/-- The inductive invariant of the trace semantics: at most one live
dispatcher per guild, and a guild outside the loop set has no dispatcher
and no flagged Node.  (A flagged Node does NOT imply a live dispatcher:
a contended wake terminates the dispatcher while the flag persists.) -/
def SysInv (st : SysState) : Prop :=
  ∀ g, st.alive g ≤ 1 ∧
    (st.client.loops g = false → st.alive g = 0 ∧
      ∀ node, st.client.nodes g = some node → node.is_on_loops = false)

/-- C1: the discord-gateway `create_session` sends the VoiceUpdate and
returns Ok, but — because the insertion guard at `src/lib.rs` line 475 is
`contains_key` instead of `!contains_key` — it does NOT create a default
Node for a guild that has none: starting from an empty registry, the
registry still has no Node for guild 1 afterwards, contradicting the
claim (and the behaviour of the sibling `create_session_with_songbird`,
which inserts exactly when the key is absent). -/
theorem create_session_leaves_absent_node_absent :
    (LavalinkClient.create_session emptyState ciA).map
        (fun r => (r.1.nodes 1, r.2)) =
      .ok (none, SendOpcode.VoiceUpdate
        { session_id := "sess"
          event := { token := "tok", endpoint := "ep.example", guild_id := "1" } }) := by
  rfl

/-- The songbird variant does create a default Node when none is present:
this is the behaviour the spec describes, witnessing that the inverted
guard in `create_session` is a slip rather than a design choice. -/
theorem create_session_with_songbird_inserts_default :
    (LavalinkClient.create_session_with_songbird emptyState
        { guild_id := 1, token := "tok", endpoint := "ep.example"
          session_id := "sess" }).map (fun r => (r.1.nodes 1, r.2)) =
      .ok (some Node.default, SendOpcode.VoiceUpdate
        { session_id := "sess"
          event := { token := "tok", endpoint := "ep.example", guild_id := "1" } }) := by
  rfl

/-- The inverted guard also wipes an existing Node: re-running
`create_session` for a guild that already has state replaces its Node with
the default one. -/
theorem create_session_resets_present_node :
    (LavalinkClient.create_session sessionQState ciA).map
        (fun r => r.1.nodes 1) = .ok (some Node.default) := by
  rfl

/-- C5: `skip` returns `none` and changes nothing when the entry is
contended or the Node is absent; on a present Node it clears `now_playing`
and, when the queue is non-empty, removes and returns the head. -/
theorem skip_clears_and_pops (locked : Bool) (s : LavalinkClientInner) (g : Nat) :
    (locked = true → LavalinkClient.skip locked s g = (none, s)) ∧
    (s.nodes g = none → LavalinkClient.skip locked s g = (none, s)) ∧
    (∀ node, locked = false → s.nodes g = some node →
      (node.queue = [] →
        LavalinkClient.skip locked s g =
          (none, { s with nodes := (Function.update s.nodes g
              (some { node with now_playing := none })) })) ∧
      (∀ t rest, node.queue = t :: rest →
        LavalinkClient.skip locked s g =
          (some t, { s with nodes := (Function.update s.nodes g
              (some { node with now_playing := none, queue := rest })) }))) := by
  refine ⟨?_, ?_, ?_⟩
  · intro h; subst h; simp [LavalinkClient.skip]
  · intro h
    cases locked with
    | true => simp [LavalinkClient.skip]
    | false => simp [LavalinkClient.skip, h]
  · intro node hl hn
    subst hl
    constructor
    · intro hq
      simp [LavalinkClient.skip, hn, hq]
    · intro t rest hq
      simp [LavalinkClient.skip, hn, hq]

/-- Witness for C5 at concrete inputs: a contended access changes nothing,
and on the state after the first enqueue `skip` pops and returns the head. -/
theorem skip_clears_and_pops_witness :
    LavalinkClient.skip true sessionQState 1 = (none, sessionQState) ∧
    LavalinkClient.skip false sessionQState 1 =
      (some tqA, { sessionQState with nodes := (Function.update sessionQState.nodes 1
          (some { nodeQ with now_playing := none, queue := [] })) }) := by
  constructor
  · exact (skip_clears_and_pops true sessionQState 1).1 rfl
  · exact ((skip_clears_and_pops false sessionQState 1).2.2 nodeQ rfl rfl).2 tqA [] rfl

/-- C6: `destroy` requires the socket, clears `now_playing`, drops the
queue head, sends Destroy, and leaves every other piece of state alone:
the guild keeps its registry entry, the loop set is untouched, the other
guilds' Nodes are untouched, and the Node's other fields are untouched. -/
theorem destroy_clears_head_and_frames (s : LavalinkClientInner) (g : Nat)
    (node : Node) (hs : s.socket_sender.isSome = true)
    (hn : s.nodes g = some node) :
    LavalinkClient.destroy s g =
      .ok ({ s with nodes := (Function.update s.nodes g
          (some { node with now_playing := none, queue := node.queue.tail })) },
        SendOpcode.Destroy) ∧
    (∀ h, h ≠ g → (applyExcept s (LavalinkClient.destroy s g)).nodes h = s.nodes h) ∧
    (applyExcept s (LavalinkClient.destroy s g)).loops = s.loops ∧
    (applyExcept s (LavalinkClient.destroy s g)).socket_sender = s.socket_sender ∧
    ((applyExcept s (LavalinkClient.destroy s g)).nodes g).isSome = true ∧
    (∀ n', (applyExcept s (LavalinkClient.destroy s g)).nodes g = some n' →
      n'.is_paused = node.is_paused ∧ n'.is_on_loops = node.is_on_loops ∧
      n'.now_playing = none ∧ n'.queue = node.queue.tail) := by
  obtain ⟨u, hu⟩ := Option.isSome_iff_exists.mp hs
  have hmain : LavalinkClient.destroy s g =
      .ok ({ s with nodes := (Function.update s.nodes g
          (some { node with now_playing := none, queue := node.queue.tail })) },
        SendOpcode.Destroy) := by
    cases hq : node.queue with
    | nil => simp [LavalinkClient.destroy, hu, hn, hq]
    | cons a l => simp [LavalinkClient.destroy, hu, hn, hq]
  refine ⟨hmain, ?_, ?_, ?_, ?_, ?_⟩
  · intro h hne
    simp [applyExcept, hmain, Function.update_noteq hne]
  · simp [applyExcept, hmain]
  · simp [applyExcept, hmain]
  · simp [applyExcept, hmain]
  · intro n' hn'
    simp [applyExcept, hmain] at hn'
    simp [← hn']

/-- Witness for C6: destroying guild 1 in the post-enqueue state pops the
head, keeps the registry key and the loop set, and sends Destroy. -/
theorem destroy_clears_head_and_frames_witness :
    LavalinkClient.destroy sessionQState 1 =
      .ok ({ sessionQState with nodes := (Function.update sessionQState.nodes 1
          (some { nodeQ with now_playing := none, queue := [] })) },
        SendOpcode.Destroy) ∧
    (applyExcept sessionQState (LavalinkClient.destroy sessionQState 1)).loops =
      sessionQState.loops ∧
    ((applyExcept sessionQState (LavalinkClient.destroy sessionQState 1)).nodes 1).isSome =
      true := by
  have h := destroy_clears_head_and_frames sessionQState 1 nodeQ rfl rfl
  exact ⟨h.1, h.2.2.1, h.2.2.2.2.1⟩

/-- C8: `volume` clamps its argument into `[0, 1000]` and sends a Volume
command carrying the clamped value, leaving the state unchanged. -/
theorem volume_clamps (s : LavalinkClientInner) (g v : Nat)
    (hv : v < 65536) (hs : s.socket_sender.isSome = true) :
    LavalinkClient.volume s g v = .ok (s, SendOpcode.Volume (max (min v 1000) 0)) ∧
    max (min v 1000) 0 ≤ 1000 ∧ (v ≤ 1000 → max (min v 1000) 0 = v) := by
  obtain ⟨u, hu⟩ := Option.isSome_iff_exists.mp hs
  refine ⟨?_, ?_, ?_⟩
  · simp [LavalinkClient.volume, hu]
  · omega
  · omega

/-- Witness for C8: `volume(g, 5000)` sends `volume == 1000` and
`volume(g, 0)` sends `volume == 0`. -/
theorem volume_clamps_witness :
    LavalinkClient.volume emptyState 1 5000 = .ok (emptyState, SendOpcode.Volume 1000) ∧
    LavalinkClient.volume emptyState 1 0 = .ok (emptyState, SendOpcode.Volume 0) := by
  constructor
  · simpa using (volume_clamps emptyState 1 5000 (by decide) rfl).1
  · simpa using (volume_clamps emptyState 1 0 (by decide) rfl).1

/-- C2: enqueue without a session (guild not yet in the loop set, no Node)
fails with `NoSessionPresent` and changes nothing; from a freshly
established session, the first enqueue sets `is_on_loops`, appends the
item, adds the guild to the loop set and spawns the dispatcher; a second
enqueue appends without spawning, leaving the queue `[item1, item2]`. -/
theorem queue_enqueue_scenario (s : LavalinkClientInner) (g : Nat)
    (p1 p2 : PlayParameters)
    (hnode : s.nodes g = some Node.default) (hloop : s.loops g = false)
    (hg1 : p1.guild_id = g) (hg2 : p2.guild_id = g) :
    (∀ (t : LavalinkClientInner) (q : PlayParameters) (lk : Bool),
      t.loops q.guild_id = false → t.nodes q.guild_id = none →
      q.queue lk t = { result := .err .NoSessionPresent, state := t, spawned := false }) ∧
    (p1.queue false s).result = .ok ∧
    (p1.queue false s).spawned = true ∧
    (p1.queue false s).state.nodes g =
      some { now_playing := none, queue := [p1.to_track_queue]
             is_paused := false, is_on_loops := true } ∧
    (p1.queue false s).state.loops g = true ∧
    (p2.queue false (p1.queue false s).state).result = .ok ∧
    (p2.queue false (p1.queue false s).state).spawned = false ∧
    (p2.queue false (p1.queue false s).state).state.nodes g =
      some { now_playing := none, queue := [p1.to_track_queue, p2.to_track_queue]
             is_paused := false, is_on_loops := true } := by
  subst hg1
  have hnosess : ∀ (t : LavalinkClientInner) (q : PlayParameters) (lk : Bool),
      t.loops q.guild_id = false → t.nodes q.guild_id = none →
      q.queue lk t = { result := .err .NoSessionPresent, state := t, spawned := false } := by
    intro t q lk hl hn
    cases lk with
    | true => simp [PlayParameters.queue, hl]
    | false => simp [PlayParameters.queue, hl, hn]
  refine ⟨hnosess, ?_, ?_, ?_, ?_, ?_, ?_, ?_⟩ <;>
    simp [PlayParameters.queue, PlayParameters.to_track_queue, hloop, hnode, hg2,
      Node.default]

/-- Witness for C2 at concrete inputs: on an empty registry enqueue fails
with `NoSessionPresent`; from `sessionState` the two enqueues for guild 1
behave as the claim states. -/
theorem queue_enqueue_scenario_witness :
    ppA.queue false emptyState =
      { result := .err .NoSessionPresent, state := emptyState, spawned := false } ∧
    (ppA.queue false sessionState).result = .ok ∧
    (ppA.queue false sessionState).spawned = true ∧
    (ppA.queue false sessionState).state.nodes 1 =
      some { now_playing := none, queue := [tqA]
             is_paused := false, is_on_loops := true } ∧
    (ppA.queue false sessionState).state.loops 1 = true ∧
    (ppB.queue false (ppA.queue false sessionState).state).result = .ok ∧
    (ppB.queue false (ppA.queue false sessionState).state).spawned = false ∧
    (ppB.queue false (ppA.queue false sessionState).state).state.nodes 1 =
      some { now_playing := none, queue := [tqA, tqB]
             is_paused := false, is_on_loops := true } := by
  have h := queue_enqueue_scenario sessionState 1 ppA ppB rfl rfl rfl rfl
  exact ⟨h.1 emptyState ppA false rfl rfl, h.2⟩

/-- C3 as stated is false: on a contended wake (`try_get_mut` returns
`Locked`, `src/builders.rs` line 249) the Node exists, the queue is
non-empty and `now_playing` is none, yet no Play is issued — and the task
even terminates instead of waking again. -/
theorem dispatcher_tick_contended_no_play :
    sessionQState.nodes 1 = some nodeQ ∧
    nodeQ.queue ≠ [] ∧
    nodeQ.now_playing = none ∧
    (dispatcher_tick true true sessionQState 1).issued = none ∧
    (dispatcher_tick true true sessionQState 1).alive = false ∧
    (dispatcher_tick true true sessionQState 1).state = sessionQState := by
  exact ⟨rfl, by decide, rfl, rfl, rfl, rfl⟩

/-- C3 amended: on an UNCONTENDED wake where the Node exists, a Play is
constructed and dispatched exactly when the queue is non-empty and
`now_playing` is none, and then it is the Play of the queue head; the wake
sets `now_playing` to the head without removing it from the queue, and the
following wake (contended or not) issues nothing for that head; a wake
with `now_playing` set issues nothing and changes nothing; a contended
wake issues nothing, changes nothing, and terminates the task. -/
theorem dispatcher_tick_play_iff (sendOk : Bool) (s : LavalinkClientInner)
    (g : Nat) (node : Node) (hn : s.nodes g = some node) :
    ((dispatcher_tick false sendOk s g).alive = true) ∧
    ((dispatcher_tick false sendOk s g).issued.isSome = true ↔
      (node.queue ≠ [] ∧ node.now_playing = none)) ∧
    (∀ t rest, node.queue = t :: rest → node.now_playing = none →
      (dispatcher_tick false sendOk s g).issued =
        some { track := t.track.track, no_replace := false
               start_time := t.start_time, end_time := t.end_time } ∧
      (dispatcher_tick false sendOk s g).state.nodes g =
        some { node with now_playing := some t } ∧
      (∀ lk2 sendOk2,
        (dispatcher_tick lk2 sendOk2
          (dispatcher_tick false sendOk s g).state g).issued = none)) ∧
    (node.now_playing.isSome = true →
      (dispatcher_tick false sendOk s g).issued = none ∧
      (dispatcher_tick false sendOk s g).state = s) ∧
    (∀ n', (dispatcher_tick false sendOk s g).state.nodes g = some n' →
      n'.queue = node.queue) ∧
    ((dispatcher_tick true sendOk s g).issued = none ∧
      (dispatcher_tick true sendOk s g).state = s ∧
      (dispatcher_tick true sendOk s g).alive = false) := by
  cases hq : node.queue with
  | nil =>
    cases hp : node.now_playing with
    | none => simp [dispatcher_tick, hn, hq, hp]
    | some cur => simp [dispatcher_tick, hn, hq, hp]
  | cons t0 rest0 =>
    cases hp : node.now_playing with
    | some cur => simp [dispatcher_tick, hn, hq, hp]
    | none =>
      refine ⟨?_, ?_, ?_, ?_, ?_, ?_⟩
      · simp [dispatcher_tick, hn, hq, hp]
      · simp [dispatcher_tick, hn, hq, hp]
      · intro t rest htr hpn
        injection htr with h1 h2
        subst h1
        subst h2
        refine ⟨?_, ?_, ?_⟩
        · simp [dispatcher_tick, hn, hq, hp]
        · simp [dispatcher_tick, hn, hq, hp]
        · intro lk2 sendOk2
          cases lk2 with
          | true => simp [dispatcher_tick]
          | false => simp [dispatcher_tick, hn, hq, hp]
      · intro hps
        simp [hp] at hps
      · intro n' hn'
        simp [dispatcher_tick, hn, hq, hp] at hn'
        simp [← hn', hq]
      · exact ⟨rfl, rfl, rfl⟩

/-- Witness for the amended C3: in `sessionQState` (head `tqA`, nothing
playing) an uncontended wake issues the Play of the head, keeps the head
queued, the next wake issues nothing, and a contended wake terminates the
task without issuing. -/
theorem dispatcher_tick_play_iff_witness :
    (dispatcher_tick false true sessionQState 1).issued =
      some { track := tqA.track.track, no_replace := false
             start_time := tqA.start_time, end_time := tqA.end_time } ∧
    (dispatcher_tick false true sessionQState 1).state.nodes 1 =
      some { nodeQ with now_playing := some tqA } ∧
    (dispatcher_tick false true
        (dispatcher_tick false true sessionQState 1).state 1).issued = none ∧
    (dispatcher_tick true true sessionQState 1).alive = false := by
  have h0 := dispatcher_tick_play_iff true sessionQState 1 nodeQ rfl
  have h := h0.2.2.1 tqA [] rfl rfl
  exact ⟨h.1, h.2.1, h.2.2 false true, h0.2.2.2.2.2.2.2⟩

/-- C4 as stated is false: after an uncontended wake whose send fails
(here: no socket sender attached), `now_playing` is already set to the
head and is not rolled back, so the NEXT wake does not retry — it issues
nothing, even though the queue head is unchanged and the send never
succeeded. -/
theorem dispatcher_send_failure_no_retry :
    (dispatcher_tick false true noSocketState 1).send_error = true ∧
    (dispatcher_tick false true noSocketState 1).alive = true ∧
    (dispatcher_tick false true noSocketState 1).issued.isSome = true ∧
    (dispatcher_tick false true
        (dispatcher_tick false true noSocketState 1).state 1).issued = none := by
  decide

/-- C4 amended: a send failure (failed send or missing socket) on an
uncontended wake is logged, does not terminate the task and is never
escalated; but because `now_playing` was set to the head before the send
and is not rolled back, subsequent wakes issue nothing until `now_playing`
is cleared externally.  After the Event Reactor clears it (the track-end
path), the next uncontended wake retries the same, still-queued head;
after a `skip` — which also pops the head — the next uncontended wake
dispatches the NEW head, if any; and a contended wake terminates the task
instead of retrying. -/
theorem dispatcher_send_failure_amended (sendOk : Bool)
    (s : LavalinkClientInner) (g : Nat) (node : Node) (t : TrackQueue)
    (rest : List TrackQueue) (hn : s.nodes g = some node)
    (hq : node.queue = t :: rest) (hp : node.now_playing = none)
    (hfail : s.socket_sender = none ∨ sendOk = false) :
    (dispatcher_tick false sendOk s g).send_error = true ∧
    (dispatcher_tick false sendOk s g).alive = true ∧
    (dispatcher_tick false sendOk s g).state.nodes g =
      some { node with now_playing := some t } ∧
    (∀ lk2 sendOk2,
      (dispatcher_tick lk2 sendOk2
        (dispatcher_tick false sendOk s g).state g).issued = none) ∧
    (∀ sendOk3,
      (dispatcher_tick false sendOk3
          (clear_now_playing (dispatcher_tick false sendOk s g).state g) g).issued =
        some { track := t.track.track, no_replace := false
               start_time := t.start_time, end_time := t.end_time }) ∧
    (∀ sendOk4,
      (dispatcher_tick false sendOk4
          (LavalinkClient.skip false
            (dispatcher_tick false sendOk s g).state g).2 g).issued =
        rest.head?.map (fun t2 =>
          { track := t2.track.track, no_replace := false
            start_time := t2.start_time, end_time := t2.end_time })) ∧
    (∀ sendOk5,
      (dispatcher_tick true sendOk5
        (dispatcher_tick false sendOk s g).state g).alive = false) := by
  refine ⟨?_, ?_, ?_, ?_, ?_, ?_, ?_⟩
  · rcases hfail with hf | hf
    · simp [dispatcher_tick, hn, hq, hp, hf]
    · simp [dispatcher_tick, hn, hq, hp, hf]
  · simp [dispatcher_tick, hn, hq, hp]
  · simp [dispatcher_tick, hn, hq, hp]
  · intro lk2 sendOk2
    cases lk2 with
    | true => simp [dispatcher_tick]
    | false => simp [dispatcher_tick, hn, hq, hp]
  · intro sendOk3
    simp [dispatcher_tick, clear_now_playing, hn, hq, hp]
  · intro sendOk4
    cases hrest : rest with
    | nil => simp [dispatcher_tick, LavalinkClient.skip, hn, hq, hp, hrest]
    | cons t2 r2 => simp [dispatcher_tick, LavalinkClient.skip, hn, hq, hp, hrest]
  · intro sendOk5
    rfl

/-- Witness for the amended C4 at a concrete input: no socket attached,
head `tqA`, empty tail; the failure is logged, the task lives on, the next
wake is silent, after an event-reactor clear the same head is retried,
after a skip (which popped the head) the next wake issues nothing, and a
contended wake terminates the task. -/
theorem dispatcher_send_failure_amended_witness :
    (dispatcher_tick false true noSocketState 1).send_error = true ∧
    (dispatcher_tick false true noSocketState 1).alive = true ∧
    (dispatcher_tick false true noSocketState 1).state.nodes 1 =
      some { nodeQ with now_playing := some tqA } ∧
    (dispatcher_tick false false
        (dispatcher_tick false true noSocketState 1).state 1).issued = none ∧
    (dispatcher_tick false true
        (clear_now_playing (dispatcher_tick false true noSocketState 1).state 1) 1).issued =
      some { track := tqA.track.track, no_replace := false
             start_time := tqA.start_time, end_time := tqA.end_time } ∧
    (dispatcher_tick false true
        (LavalinkClient.skip false
          (dispatcher_tick false true noSocketState 1).state 1).2 1).issued = none ∧
    (dispatcher_tick true true
        (dispatcher_tick false true noSocketState 1).state 1).alive = false := by
  have h := dispatcher_send_failure_amended true noSocketState 1 nodeQ tqA []
    rfl rfl rfl (Or.inl rfl)
  exact ⟨h.1, h.2.1, h.2.2.1, h.2.2.2.1 false false, h.2.2.2.2.1 true,
    h.2.2.2.2.2.1 true, h.2.2.2.2.2.2 true⟩

/-- C7: the queue's relative order is insertion order.  Enqueue only
appends at the tail (and every non-Ok path leaves the queue untouched),
skip and destroy only remove the head, and a dispatcher wake never changes
the queue. -/
theorem queue_order_insertion (s : LavalinkClientInner) (g : Nat) (node : Node)
    (hn : s.nodes g = some node) :
    (∀ (p : PlayParameters) (lk : Bool), p.guild_id = g →
      ∀ n', (p.queue lk s).state.nodes g = some n' →
        ((p.queue lk s).result = .ok → n'.queue = node.queue ++ [p.to_track_queue]) ∧
        ((p.queue lk s).result ≠ .ok → n'.queue = node.queue)) ∧
    (∀ n', (LavalinkClient.skip false s g).2.nodes g = some n' →
      n'.queue = node.queue.tail) ∧
    (s.socket_sender.isSome = true →
      ∀ n', (applyExcept s (LavalinkClient.destroy s g)).nodes g = some n' →
        n'.queue = node.queue.tail) ∧
    (∀ lk2 sendOk n', (dispatcher_tick lk2 sendOk s g).state.nodes g = some n' →
      n'.queue = node.queue) := by
  refine ⟨?_, ?_, ?_, ?_⟩
  · intro p lk hpg n' hn'
    subst hpg
    by_cases hl : s.loops p.guild_id
    · simp [PlayParameters.queue, hl, hn] at hn' ⊢
      simp [← hn', PlayParameters.to_track_queue]
    · have hl' : s.loops p.guild_id = false := by simpa using hl
      cases lk with
      | true =>
        simp [PlayParameters.queue, hl'] at hn' ⊢
        rw [hn] at hn'
        injection hn' with h0
        simp [h0]
      | false =>
        by_cases hb : node.is_on_loops
        · simp [PlayParameters.queue, hl', hn, hb] at hn' ⊢
          simp [← hn', PlayParameters.to_track_queue]
        · simp [PlayParameters.queue, hl', hn, hb] at hn' ⊢
          simp [← hn', PlayParameters.to_track_queue]
  · intro n' hn'
    cases hq : node.queue with
    | nil =>
      simp [LavalinkClient.skip, hn, hq] at hn'
      simp [← hn', hq]
    | cons t rest =>
      simp [LavalinkClient.skip, hn, hq] at hn'
      simp [← hn', hq]
  · intro hs n' hn'
    obtain ⟨u, hu⟩ := Option.isSome_iff_exists.mp hs
    cases hq : node.queue with
    | nil =>
      simp [LavalinkClient.destroy, applyExcept, hu, hn, hq] at hn'
      simp [← hn', hq]
    | cons t rest =>
      simp [LavalinkClient.destroy, applyExcept, hu, hn, hq] at hn'
      simp [← hn', hq]
  · intro lk2 sendOk n' hn'
    cases lk2 with
    | true =>
      have hn'' : s.nodes g = some n' := hn'
      rw [hn] at hn''
      injection hn'' with h0
      rw [← h0]
    | false =>
      cases hq : node.queue with
      | nil =>
        simp [dispatcher_tick, hn, hq] at hn'
        subst hn'
        exact hq
      | cons t rest =>
        cases hp : node.now_playing with
        | none =>
          simp [dispatcher_tick, hn, hq, hp] at hn'
          simp [← hn', hq]
        | some cur =>
          simp [dispatcher_tick, hn, hq, hp] at hn'
          subst hn'
          exact hq

/-- Witness for C7 at concrete inputs: enqueue appends `tqB` behind `tqA`,
skip and destroy pop `tqA`, and a wake leaves `[tqA]` in place. -/
theorem queue_order_insertion_witness :
    (∀ n', (ppB.queue false sessionState).state.nodes 1 = some n' →
      ((ppB.queue false sessionState).result = .ok → n'.queue = [] ++ [tqB]) ∧
      ((ppB.queue false sessionState).result ≠ .ok → n'.queue = [])) ∧
    (∀ n', (LavalinkClient.skip false sessionQState 1).2.nodes 1 = some n' →
      n'.queue = [tqA].tail) ∧
    (∀ n', (applyExcept sessionQState
        (LavalinkClient.destroy sessionQState 1)).nodes 1 = some n' →
      n'.queue = [tqA].tail) ∧
    (∀ n', (dispatcher_tick false true sessionQState 1).state.nodes 1 = some n' →
      n'.queue = [tqA]) := by
  have hA := queue_order_insertion sessionQState 1 nodeQ rfl
  have hB := queue_order_insertion sessionState 1 Node.default rfl
  exact ⟨hB.1 ppB false rfl, hA.2.1, hA.2.2.1 rfl, fun n' => hA.2.2.2 false true n'⟩

/-- C10: with a guild in the loop set but no Node in the registry, enqueue
panics on the `unwrap` of the missing map entry instead of returning
`NoSessionPresent`; under the precondition that loop-set membership implies
registry presence, enqueue never panics. -/
theorem queue_panics_on_dangling_loop (s t : LavalinkClientInner)
    (p q : PlayParameters) (lk lk2 : Bool)
    (h1 : s.loops p.guild_id = true) (h2 : s.nodes p.guild_id = none)
    (h3 : t.loops q.guild_id = true → (t.nodes q.guild_id).isSome = true) :
    (p.queue lk s).result = .panicked ∧ (q.queue lk2 t).result ≠ .panicked := by
  constructor
  · simp [PlayParameters.queue, h1, h2]
  · by_cases hl : t.loops q.guild_id
    · obtain ⟨n, hnq⟩ := Option.isSome_iff_exists.mp (h3 hl)
      simp [PlayParameters.queue, hl, hnq]
    · have hl' : t.loops q.guild_id = false := by simpa using hl
      cases lk2 with
      | true => simp [PlayParameters.queue, hl']
      | false =>
        cases hnq : t.nodes q.guild_id with
        | none => simp [PlayParameters.queue, hl', hnq]
        | some n =>
          by_cases hb : n.is_on_loops
          · simp [PlayParameters.queue, hl', hnq, hb]
          · simp [PlayParameters.queue, hl', hnq, hb]

/-- Witness for C10: in `danglingLoopState` (guild 1 in the loop set, no
Node) the enqueue panics; in `sessionQState` (membership backed by a Node)
it does not. -/
theorem queue_panics_on_dangling_loop_witness :
    (ppA.queue false danglingLoopState).result = .panicked ∧
    (ppB.queue false sessionQState).result ≠ .panicked := by
  exact queue_panics_on_dangling_loop danglingLoopState sessionQState ppA ppB
    false false rfl rfl (fun _ => rfl)

/-- Any state preserves its own loop-accounting core. -/
theorem preservesLoopCore_refl (s : LavalinkClientInner) : preservesLoopCore s s := by
  refine ⟨rfl, ?_⟩
  intro g n' hn'
  exact Or.inr ⟨n', hn', rfl⟩

/-- Updating one guild's Node to one with the same `is_on_loops` flag
preserves the loop-accounting core. -/
theorem preservesLoopCore_update (s : LavalinkClientInner) (g0 : Nat)
    (node n' : Node) (hn : s.nodes g0 = some node)
    (hflag : n'.is_on_loops = node.is_on_loops) :
    preservesLoopCore s { s with nodes := Function.update s.nodes g0 (some n') } := by
  refine ⟨rfl, ?_⟩
  intro g m hm
  have hm' : Function.update s.nodes g0 (some n') g = some m := hm
  by_cases hg : g = g0
  · subst hg
    rw [Function.update_same] at hm'
    injection hm' with hm'
    subst hm'
    exact Or.inr ⟨node, hn, hflag⟩
  · rw [Function.update_noteq hg] at hm'
    exact Or.inr ⟨m, hm', rfl⟩

/-- Replacing (or inserting) one guild's Node by one whose flag is false
preserves the loop-accounting core. -/
theorem preservesLoopCore_update_false (s : LavalinkClientInner) (g0 : Nat)
    (n' : Node) (hflag : n'.is_on_loops = false) :
    preservesLoopCore s { s with nodes := Function.update s.nodes g0 (some n') } := by
  refine ⟨rfl, ?_⟩
  intro g m hm
  have hm' : Function.update s.nodes g0 (some n') g = some m := hm
  by_cases hg : g = g0
  · subst hg
    rw [Function.update_same] at hm'
    injection hm' with hm'
    subst hm'
    exact Or.inl hflag
  · rw [Function.update_noteq hg] at hm'
    exact Or.inr ⟨m, hm', rfl⟩

/-- Removing one guild's Node preserves the loop-accounting core. -/
theorem preservesLoopCore_remove (s : LavalinkClientInner) (g0 : Nat) :
    preservesLoopCore s { s with nodes := Function.update s.nodes g0 none } := by
  refine ⟨rfl, ?_⟩
  intro g m hm
  have hm' : Function.update s.nodes g0 none g = some m := hm
  by_cases hg : g = g0
  · subst hg
    rw [Function.update_same] at hm'
    cases hm'
  · rw [Function.update_noteq hg] at hm'
    exact Or.inr ⟨m, hm', rfl⟩

/-- Replacing the socket sender preserves the loop-accounting core. -/
theorem preservesLoopCore_socket (s : LavalinkClientInner) (sock : Option Unit) :
    preservesLoopCore s { s with socket_sender := sock } := by
  refine ⟨rfl, ?_⟩
  intro g m hm
  exact Or.inr ⟨m, hm, rfl⟩

/-- A core-preserving transition that keeps the dispatcher counts keeps the
invariant. -/
theorem sysInv_of_core (st : SysState) (c' : LavalinkClientInner)
    (h : SysInv st) (hc : preservesLoopCore st.client c') :
    SysInv { client := c', alive := st.alive } := by
  intro g
  refine ⟨(h g).1, ?_⟩
  intro hlf
  rw [hc.1] at hlf
  refine ⟨((h g).2 hlf).1, ?_⟩
  intro node hn
  rcases hc.2 g node hn with hfalse | ⟨n, hn0, hflag⟩
  · exact hfalse
  · rw [hflag]
    exact ((h g).2 hlf).2 n hn0

/-- An enqueue that does not spawn preserves the loop-accounting core: it
either changes nothing or appends to the queue of an existing Node without
touching its flag. -/
theorem queue_no_spawn_core (p : PlayParameters) (lk : Bool)
    (s : LavalinkClientInner) (hsp : (p.queue lk s).spawned = false) :
    preservesLoopCore s (p.queue lk s).state := by
  by_cases hl : s.loops p.guild_id = true
  · cases hnn : s.nodes p.guild_id with
    | some node =>
      have hst : (p.queue lk s).state =
          { s with nodes := (Function.update s.nodes p.guild_id
              (some { node with queue := node.queue ++ [p.to_track_queue] })) } := by
        simp [PlayParameters.queue, PlayParameters.to_track_queue, hl, hnn]
      rw [hst]
      exact preservesLoopCore_update s p.guild_id node _ hnn rfl
    | none =>
      have hst : (p.queue lk s).state = s := by
        simp [PlayParameters.queue, hl, hnn]
      rw [hst]
      exact preservesLoopCore_refl s
  · have hl' : s.loops p.guild_id = false := by simpa using hl
    cases lk with
    | true =>
      have hst : (p.queue true s).state = s := by
        simp [PlayParameters.queue, hl']
      rw [hst]
      exact preservesLoopCore_refl s
    | false =>
      cases hnn : s.nodes p.guild_id with
      | none =>
        have hst : (p.queue false s).state = s := by
          simp [PlayParameters.queue, hl', hnn]
        rw [hst]
        exact preservesLoopCore_refl s
      | some node =>
        cases hb : node.is_on_loops with
        | true =>
          have hst : (p.queue false s).state =
              { s with nodes := (Function.update s.nodes p.guild_id
                  (some { node with queue := node.queue ++ [p.to_track_queue] })) } := by
            simp [PlayParameters.queue, PlayParameters.to_track_queue, hl', hnn, hb]
          rw [hst]
          exact preservesLoopCore_update s p.guild_id node _ hnn rfl
        | false =>
          exfalso
          have hsp2 : (p.queue false s).spawned = true := by
            simp [PlayParameters.queue, hl', hnn, hb]
          rw [hsp2] at hsp
          cases hsp

/-- What an enqueue that spawns looks like: the guild was outside the loop
set and had an unflagged Node; afterwards the guild is in the loop set,
its Node is flagged, and nothing else changed. -/
theorem queue_spawn_facts (p : PlayParameters) (lk : Bool)
    (s : LavalinkClientInner) (hsp : (p.queue lk s).spawned = true) :
    s.loops p.guild_id = false ∧
    (p.queue lk s).state.loops p.guild_id = true ∧
    (∀ g, g ≠ p.guild_id →
      (p.queue lk s).state.loops g = s.loops g ∧
      (p.queue lk s).state.nodes g = s.nodes g) ∧
    (∀ n', (p.queue lk s).state.nodes p.guild_id = some n' →
      n'.is_on_loops = true) ∧
    (∃ node, s.nodes p.guild_id = some node ∧ node.is_on_loops = false) := by
  by_cases hl : s.loops p.guild_id = true
  · exfalso
    cases hnn : s.nodes p.guild_id with
    | some node =>
      have h0 : (p.queue lk s).spawned = false := by
        simp [PlayParameters.queue, hl, hnn]
      rw [h0] at hsp; cases hsp
    | none =>
      have h0 : (p.queue lk s).spawned = false := by
        simp [PlayParameters.queue, hl, hnn]
      rw [h0] at hsp; cases hsp
  · have hl' : s.loops p.guild_id = false := by simpa using hl
    cases lk with
    | true =>
      exfalso
      have h0 : (p.queue true s).spawned = false := by
        simp [PlayParameters.queue, hl']
      rw [h0] at hsp; cases hsp
    | false =>
      cases hnn : s.nodes p.guild_id with
      | none =>
        exfalso
        have h0 : (p.queue false s).spawned = false := by
          simp [PlayParameters.queue, hl', hnn]
        rw [h0] at hsp; cases hsp
      | some node =>
        cases hb : node.is_on_loops with
        | true =>
          exfalso
          have h0 : (p.queue false s).spawned = false := by
            simp [PlayParameters.queue, hl', hnn, hb]
          rw [h0] at hsp; cases hsp
        | false =>
          have hst : (p.queue false s).state =
              { s with
                nodes := (Function.update s.nodes p.guild_id
                  (some { node with is_on_loops := true
                                    queue := node.queue ++ [p.to_track_queue] }))
                loops := Function.update s.loops p.guild_id true } := by
            simp [PlayParameters.queue, PlayParameters.to_track_queue, hl', hnn, hb]
          refine ⟨hl', ?_, ?_, ?_, ⟨node, rfl, hb⟩⟩
          · rw [hst]
            exact Function.update_same p.guild_id true s.loops
          · intro g hg
            rw [hst]
            exact ⟨Function.update_noteq hg true s.loops,
              Function.update_noteq hg _ s.nodes⟩
          · intro n' hn'
            rw [hst] at hn'
            have hn'' : Function.update s.nodes p.guild_id
                (some { node with is_on_loops := true
                                  queue := node.queue ++ [p.to_track_queue] })
                p.guild_id = some n' := hn'
            rw [Function.update_same] at hn''
            injection hn'' with hn''
            rw [← hn'']

/-- `skip` preserves the loop-accounting core. -/
theorem skip_core (locked : Bool) (s : LavalinkClientInner) (g0 : Nat) :
    preservesLoopCore s (LavalinkClient.skip locked s g0).2 := by
  cases locked with
  | true =>
    have hst : (LavalinkClient.skip true s g0).2 = s := by
      simp [LavalinkClient.skip]
    rw [hst]
    exact preservesLoopCore_refl s
  | false =>
    cases hnn : s.nodes g0 with
    | none =>
      have hst : (LavalinkClient.skip false s g0).2 = s := by
        simp [LavalinkClient.skip, hnn]
      rw [hst]
      exact preservesLoopCore_refl s
    | some node =>
      cases hq : node.queue with
      | nil =>
        have hst : (LavalinkClient.skip false s g0).2 =
            { s with nodes := (Function.update s.nodes g0
                (some { node with now_playing := none })) } := by
          simp [LavalinkClient.skip, hnn, hq]
        rw [hst]
        exact preservesLoopCore_update s g0 node _ hnn rfl
      | cons t rest =>
        have hst : (LavalinkClient.skip false s g0).2 =
            { s with nodes := (Function.update s.nodes g0
                (some { node with now_playing := none, queue := rest })) } := by
          simp [LavalinkClient.skip, hnn, hq]
        rw [hst]
        exact preservesLoopCore_update s g0 node _ hnn rfl

/-- `destroy` preserves the loop-accounting core. -/
theorem destroy_core (s : LavalinkClientInner) (g0 : Nat) :
    preservesLoopCore s (applyExcept s (LavalinkClient.destroy s g0)) := by
  cases hso : s.socket_sender with
  | none =>
    have hst : applyExcept s (LavalinkClient.destroy s g0) = s := by
      simp [LavalinkClient.destroy, applyExcept, hso]
    rw [hst]
    exact preservesLoopCore_refl s
  | some u =>
    cases hnn : s.nodes g0 with
    | none =>
      have hst : applyExcept s (LavalinkClient.destroy s g0) = s := by
        simp [LavalinkClient.destroy, applyExcept, hso, hnn]
      rw [hst]
      exact preservesLoopCore_refl s
    | some node =>
      have hst : applyExcept s (LavalinkClient.destroy s g0) =
          { s with nodes := (Function.update s.nodes g0
              (some { node with
                        now_playing := none
                        queue := if node.queue.isEmpty then node.queue
                                 else node.queue.tail })) } := by
        simp [LavalinkClient.destroy, applyExcept, hso, hnn]
      rw [hst]
      exact preservesLoopCore_update s g0 node _ hnn rfl

/-- The Event Reactor clearing `now_playing` preserves the loop-accounting
core. -/
theorem clear_now_playing_core (s : LavalinkClientInner) (g0 : Nat) :
    preservesLoopCore s (clear_now_playing s g0) := by
  cases hnn : s.nodes g0 with
  | none =>
    have hst : clear_now_playing s g0 = s := by
      simp [clear_now_playing, hnn]
    rw [hst]
    exact preservesLoopCore_refl s
  | some node =>
    have hst : clear_now_playing s g0 =
        { s with nodes := (Function.update s.nodes g0
            (some { node with now_playing := none })) } := by
      simp [clear_now_playing, hnn]
    rw [hst]
    exact preservesLoopCore_update s g0 node _ hnn rfl

/-- A contended wake changes nothing, issues nothing, and terminates the
task (`try_get_mut` returned `Locked`, the loop's `else break`). -/
theorem dispatcher_tick_locked (sendOk : Bool) (s : LavalinkClientInner)
    (g0 : Nat) :
    dispatcher_tick true sendOk s g0 =
      { state := s, alive := false, issued := none, send_error := false } := by
  rfl

/-- When the Node is present and the entry is not contended, a dispatcher
wake stays alive and preserves the loop-accounting core. -/
theorem dispatcher_tick_core (sendOk : Bool) (s : LavalinkClientInner)
    (g0 : Nat) (node : Node) (hnn : s.nodes g0 = some node) :
    (dispatcher_tick false sendOk s g0).alive = true ∧
    preservesLoopCore s (dispatcher_tick false sendOk s g0).state := by
  cases hh : node.queue.head? with
  | none =>
    have halive : (dispatcher_tick false sendOk s g0).alive = true := by
      cases hp : node.now_playing <;> simp [dispatcher_tick, hnn, hh, hp]
    have hst : (dispatcher_tick false sendOk s g0).state = s := by
      cases hp : node.now_playing <;> simp [dispatcher_tick, hnn, hh, hp]
    refine ⟨halive, ?_⟩
    rw [hst]
    exact preservesLoopCore_refl s
  | some t =>
    cases hp : node.now_playing with
    | some cur =>
      have halive : (dispatcher_tick false sendOk s g0).alive = true := by
        simp [dispatcher_tick, hnn, hh, hp]
      have hst : (dispatcher_tick false sendOk s g0).state = s := by
        simp [dispatcher_tick, hnn, hh, hp]
      refine ⟨halive, ?_⟩
      rw [hst]
      exact preservesLoopCore_refl s
    | none =>
      have halive : (dispatcher_tick false sendOk s g0).alive = true := by
        simp [dispatcher_tick, hnn, hh, hp]
      have hst : (dispatcher_tick false sendOk s g0).state =
          { s with nodes := (Function.update s.nodes g0
              (some { node with now_playing := some t })) } := by
        simp [dispatcher_tick, hnn, hh, hp]
      refine ⟨halive, ?_⟩
      rw [hst]
      exact preservesLoopCore_update s g0 node _ hnn rfl

/-- `create_session` preserves the loop-accounting core (its only effect on
the registries is possibly replacing an existing Node by the default,
unflagged one). -/
theorem create_session_core (s : LavalinkClientInner) (ci : ConnectionInfo) :
    preservesLoopCore s (applyExcept s (LavalinkClient.create_session s ci)) := by
  cases htk : ci.token with
  | none =>
    have hst : applyExcept s (LavalinkClient.create_session s ci) = s := by
      simp [LavalinkClient.create_session, applyExcept, htk]
    rw [hst]; exact preservesLoopCore_refl s
  | some token =>
  cases hep : ci.endpoint with
  | none =>
    have hst : applyExcept s (LavalinkClient.create_session s ci) = s := by
      simp [LavalinkClient.create_session, applyExcept, htk, hep]
    rw [hst]; exact preservesLoopCore_refl s
  | some ep =>
  cases hgid : ci.guild_id with
  | none =>
    have hst : applyExcept s (LavalinkClient.create_session s ci) = s := by
      simp [LavalinkClient.create_session, applyExcept, htk, hep, hgid]
    rw [hst]; exact preservesLoopCore_refl s
  | some gid =>
  cases hsid : ci.session_id with
  | none =>
    have hst : applyExcept s (LavalinkClient.create_session s ci) = s := by
      simp [LavalinkClient.create_session, applyExcept, htk, hep, hgid, hsid]
    rw [hst]; exact preservesLoopCore_refl s
  | some sid =>
  cases hso : s.socket_sender with
  | none =>
    have hst : applyExcept s (LavalinkClient.create_session s ci) = s := by
      simp [LavalinkClient.create_session, applyExcept, htk, hep, hgid, hsid, hso]
    rw [hst]; exact preservesLoopCore_refl s
  | some u =>
    by_cases hpres : (s.nodes gid).isSome = true
    · have hst : applyExcept s (LavalinkClient.create_session s ci) =
          { s with nodes := Function.update s.nodes gid (some Node.default) } := by
        simp [LavalinkClient.create_session, applyExcept, htk, hep, hgid, hsid, hso, hpres]
      rw [hst]
      exact preservesLoopCore_update_false s gid Node.default rfl
    · have hpres' : (s.nodes gid).isSome = false := by simpa using hpres
      have hst : applyExcept s (LavalinkClient.create_session s ci) = s := by
        simp [LavalinkClient.create_session, applyExcept, htk, hep, hgid, hsid, hso, hpres']
        rw [← hso]
      rw [hst]; exact preservesLoopCore_refl s

/-- `create_session_with_songbird` preserves the loop-accounting core (it
only ever inserts the default, unflagged Node where none existed). -/
theorem create_session_songbird_core (s : LavalinkClientInner)
    (ci : SongbirdConnectionInfo) :
    preservesLoopCore s
      (applyExcept s (LavalinkClient.create_session_with_songbird s ci)) := by
  cases hso : s.socket_sender with
  | none =>
    have hst : applyExcept s (LavalinkClient.create_session_with_songbird s ci) = s := by
      simp [LavalinkClient.create_session_with_songbird, applyExcept, hso]
    rw [hst]; exact preservesLoopCore_refl s
  | some u =>
    by_cases hpres : (s.nodes ci.guild_id).isSome = true
    · have hst : applyExcept s (LavalinkClient.create_session_with_songbird s ci) = s := by
        simp [LavalinkClient.create_session_with_songbird, applyExcept, hso, hpres]
        rw [← hso]
      rw [hst]; exact preservesLoopCore_refl s
    · have hpres' : (s.nodes ci.guild_id).isSome = false := by simpa using hpres
      have hst : applyExcept s (LavalinkClient.create_session_with_songbird s ci) =
          { s with nodes := Function.update s.nodes ci.guild_id (some Node.default) } := by
        simp [LavalinkClient.create_session_with_songbird, applyExcept, hso, hpres']
      rw [hst]
      exact preservesLoopCore_update_false s ci.guild_id Node.default rfl

/-- Decrementing one guild's dispatcher count (a dispatcher breaking on an
absent Node or a contended entry) keeps the invariant, provided that guild
had a live dispatcher. -/
theorem sysInv_dec (st : SysState) (g0 : Nat) (h : SysInv st)
    (ha : ¬st.alive g0 = 0) :
    SysInv { client := st.client
             alive := Function.update st.alive g0 (st.alive g0 - 1) } := by
  intro g
  by_cases hg : g = g0
  · subst hg
    refine ⟨?_, ?_⟩
    · show Function.update st.alive g (st.alive g - 1) g ≤ 1
      rw [Function.update_same]
      exact le_trans (Nat.sub_le _ _) (h g).1
    · intro hlf
      exact absurd ((h g).2 hlf).1 ha
  · refine ⟨?_, ?_⟩
    · show Function.update st.alive g0 (st.alive g0 - 1) g ≤ 1
      rw [Function.update_noteq hg]
      exact (h g).1
    · intro hlf
      have hlf' : st.client.loops g = false := hlf
      refine ⟨?_, ((h g).2 hlf').2⟩
      show Function.update st.alive g0 (st.alive g0 - 1) g = 0
      rw [Function.update_noteq hg]
      exact ((h g).2 hlf').1

/-- Every atomic step preserves the one-dispatcher invariant. -/
theorem sysInv_step (st : SysState) (op : Op) (h : SysInv st) :
    SysInv (st.step op) := by
  cases op with
  | enqueue lk p =>
    cases hsp : (p.queue lk st.client).spawned with
    | false =>
      have hstep : st.step (.enqueue lk p) =
          { client := (p.queue lk st.client).state, alive := st.alive } := by
        simp [SysState.step, hsp]
      rw [hstep]
      exact sysInv_of_core st _ h (queue_no_spawn_core p lk st.client hsp)
    | true =>
      obtain ⟨hl0, hl1, hother, hflag, node, hnn, hb⟩ :=
        queue_spawn_facts p lk st.client hsp
      have ha0 : st.alive p.guild_id = 0 := ((h p.guild_id).2 hl0).1
      have hstep : st.step (.enqueue lk p) =
          { client := (p.queue lk st.client).state
            alive := Function.update st.alive p.guild_id (st.alive p.guild_id + 1) } := by
        simp [SysState.step, hsp]
      rw [hstep]
      intro g
      by_cases hg : g = p.guild_id
      · subst hg
        refine ⟨?_, ?_⟩
        · show Function.update st.alive p.guild_id (st.alive p.guild_id + 1)
              p.guild_id ≤ 1
          rw [Function.update_same, ha0]
        · intro hlf
          have hlf' : (p.queue lk st.client).state.loops p.guild_id = false := hlf
          rw [hl1] at hlf'
          cases hlf'
      · refine ⟨?_, ?_⟩
        · show Function.update st.alive p.guild_id (st.alive p.guild_id + 1) g ≤ 1
          rw [Function.update_noteq hg]
          exact (h g).1
        · intro hlf
          have hlf' : (p.queue lk st.client).state.loops g = false := hlf
          rw [(hother g hg).1] at hlf'
          refine ⟨?_, ?_⟩
          · show Function.update st.alive p.guild_id (st.alive p.guild_id + 1) g = 0
            rw [Function.update_noteq hg]
            exact ((h g).2 hlf').1
          · intro m hm
            have hm' : (p.queue lk st.client).state.nodes g = some m := hm
            rw [(hother g hg).2] at hm'
            exact ((h g).2 hlf').2 m hm'
  | skipOp lk g0 =>
    have hstep : st.step (.skipOp lk g0) =
        { client := (LavalinkClient.skip lk st.client g0).2, alive := st.alive } := by
      simp [SysState.step]
    rw [hstep]
    exact sysInv_of_core st _ h (skip_core lk st.client g0)
  | destroyOp g0 =>
    have hstep : st.step (.destroyOp g0) =
        { client := applyExcept st.client (LavalinkClient.destroy st.client g0)
          alive := st.alive } := by
      simp [SysState.step]
    rw [hstep]
    exact sysInv_of_core st _ h (destroy_core st.client g0)
  | tick lk sendOk g0 =>
    by_cases ha : st.alive g0 = 0
    · have hstep : st.step (.tick lk sendOk g0) = st := by
        simp [SysState.step, ha]
      rw [hstep]
      exact h
    · cases lk with
      | true =>
        have hstep : st.step (.tick true sendOk g0) =
            { client := st.client
              alive := Function.update st.alive g0 (st.alive g0 - 1) } := by
          simp [SysState.step, ha, dispatcher_tick_locked]
        rw [hstep]
        exact sysInv_dec st g0 h ha
      | false =>
        cases hnn : st.client.nodes g0 with
        | none =>
          have hstep : st.step (.tick false sendOk g0) =
              { client := st.client
                alive := Function.update st.alive g0 (st.alive g0 - 1) } := by
            simp [SysState.step, ha, dispatcher_tick, hnn]
          rw [hstep]
          exact sysInv_dec st g0 h ha
        | some node =>
          obtain ⟨halive, hcore⟩ := dispatcher_tick_core sendOk st.client g0 node hnn
          have hstep : st.step (.tick false sendOk g0) =
              { client := (dispatcher_tick false sendOk st.client g0).state
                alive := st.alive } := by
            simp [SysState.step, ha, halive]
          rw [hstep]
          exact sysInv_of_core st _ h hcore
  | createSession ci =>
    have hstep : st.step (.createSession ci) =
        { client := applyExcept st.client (LavalinkClient.create_session st.client ci)
          alive := st.alive } := by
      simp [SysState.step]
    rw [hstep]
    exact sysInv_of_core st _ h (create_session_core st.client ci)
  | createSessionSongbird ci =>
    have hstep : st.step (.createSessionSongbird ci) =
        { client := applyExcept st.client
            (LavalinkClient.create_session_with_songbird st.client ci)
          alive := st.alive } := by
      simp [SysState.step]
    rw [hstep]
    exact sysInv_of_core st _ h (create_session_songbird_core st.client ci)
  | trackEnd g0 =>
    have hstep : st.step (.trackEnd g0) =
        { client := clear_now_playing st.client g0, alive := st.alive } := by
      simp [SysState.step]
    rw [hstep]
    exact sysInv_of_core st _ h (clear_now_playing_core st.client g0)
  | removeNode g0 =>
    have hstep : st.step (.removeNode g0) =
        { client := { st.client with nodes := Function.update st.client.nodes g0 none }
          alive := st.alive } := by
      simp [SysState.step]
    rw [hstep]
    exact sysInv_of_core st _ h (preservesLoopCore_remove st.client g0)
  | setSocket sock =>
    have hstep : st.step (.setSocket sock) =
        { client := { st.client with socket_sender := sock }, alive := st.alive } := by
      simp [SysState.step]
    rw [hstep]
    exact sysInv_of_core st _ h (preservesLoopCore_socket st.client sock)

/-- The initial state satisfies the invariant. -/
theorem sysInv_init : SysInv SysState.init := by
  intro g
  refine ⟨?_, ?_⟩
  · exact Nat.zero_le 1
  · intro hlf
    refine ⟨rfl, ?_⟩
    intro node hn
    cases hn

/-- The invariant holds after any trace. -/
theorem sysInv_run (ops : List Op) : SysInv (SysState.run ops) := by
  have haux : ∀ (l : List Op) (st : SysState), SysInv st →
      SysInv (l.foldl SysState.step st) := by
    intro l
    induction l with
    | nil => intro st hst; exact hst
    | cons op rest ih =>
      intro st hst
      exact ih (st.step op) (sysInv_step st op hst)
  exact haux ops SysState.init sysInv_init

/-- Loop-set membership is monotone: no core operation removes a guild
from the Active-Loop Set. -/
theorem step_loops_monotone (st : SysState) (op : Op) (g : Nat)
    (h : st.client.loops g = true) : (st.step op).client.loops g = true := by
  cases op with
  | enqueue lk p =>
    cases hsp : (p.queue lk st.client).spawned with
    | false =>
      have hstep : (st.step (.enqueue lk p)).client = (p.queue lk st.client).state := by
        simp [SysState.step, hsp]
      rw [hstep, (queue_no_spawn_core p lk st.client hsp).1]
      exact h
    | true =>
      have hstep : (st.step (.enqueue lk p)).client = (p.queue lk st.client).state := by
        simp [SysState.step, hsp]
      rw [hstep]
      by_cases hg : g = p.guild_id
      · subst hg
        exact (queue_spawn_facts p lk st.client hsp).2.1
      · rw [((queue_spawn_facts p lk st.client hsp).2.2.1 g hg).1]
        exact h
  | skipOp lk g0 =>
    have hstep : (st.step (.skipOp lk g0)).client = (LavalinkClient.skip lk st.client g0).2 := by
      simp [SysState.step]
    rw [hstep, (skip_core lk st.client g0).1]
    exact h
  | destroyOp g0 =>
    have hstep : (st.step (.destroyOp g0)).client =
        applyExcept st.client (LavalinkClient.destroy st.client g0) := by
      simp [SysState.step]
    rw [hstep, (destroy_core st.client g0).1]
    exact h
  | tick lk sendOk g0 =>
    by_cases ha : st.alive g0 = 0
    · have hstep : (st.step (.tick lk sendOk g0)).client = st.client := by
        simp [SysState.step, ha]
      rw [hstep]
      exact h
    · cases lk with
      | true =>
        have hstep : (st.step (.tick true sendOk g0)).client = st.client := by
          simp [SysState.step, ha, dispatcher_tick_locked]
        rw [hstep]
        exact h
      | false =>
        cases hnn : st.client.nodes g0 with
        | none =>
          have hstep : (st.step (.tick false sendOk g0)).client = st.client := by
            simp [SysState.step, ha, dispatcher_tick, hnn]
          rw [hstep]
          exact h
        | some node =>
          obtain ⟨halive, hcore⟩ := dispatcher_tick_core sendOk st.client g0 node hnn
          have hstep : (st.step (.tick false sendOk g0)).client =
              (dispatcher_tick false sendOk st.client g0).state := by
            simp [SysState.step, ha, halive]
          rw [hstep, hcore.1]
          exact h
  | createSession ci =>
    have hstep : (st.step (.createSession ci)).client =
        applyExcept st.client (LavalinkClient.create_session st.client ci) := by
      simp [SysState.step]
    rw [hstep, (create_session_core st.client ci).1]
    exact h
  | createSessionSongbird ci =>
    have hstep : (st.step (.createSessionSongbird ci)).client =
        applyExcept st.client (LavalinkClient.create_session_with_songbird st.client ci) := by
      simp [SysState.step]
    rw [hstep, (create_session_songbird_core st.client ci).1]
    exact h
  | trackEnd g0 =>
    have hstep : (st.step (.trackEnd g0)).client = clear_now_playing st.client g0 := by
      simp [SysState.step]
    rw [hstep, (clear_now_playing_core st.client g0).1]
    exact h
  | removeNode g0 =>
    exact h
  | setSocket sock =>
    exact h

/-- Once a guild is in the Active-Loop Set, no later step of any trace
spawns a dispatcher for it. -/
theorem spawnCount_zero_of_loops (ops : List Op) :
    ∀ (st : SysState) (g : Nat), st.client.loops g = true →
      spawnCount st ops g = 0 := by
  induction ops with
  | nil =>
    intro st g hl
    rfl
  | cons op rest ih =>
    intro st g hl
    have htail : spawnCount (st.step op) rest g = 0 :=
      ih (st.step op) g (step_loops_monotone st op g hl)
    cases op with
    | enqueue lk p =>
      have hhead : ¬(p.guild_id = g ∧ (p.queue lk st.client).spawned = true) := by
        rintro ⟨hpg, hsp⟩
        have := (queue_spawn_facts p lk st.client hsp).1
        rw [hpg, hl] at this
        cases this
      simp [spawnCount, hhead, htail]
    | skipOp lk g0 => simp [spawnCount, htail]
    | destroyOp g0 => simp [spawnCount, htail]
    | tick lk2 sendOk g0 => simp [spawnCount, htail]
    | createSession ci => simp [spawnCount, htail]
    | createSessionSongbird ci => simp [spawnCount, htail]
    | trackEnd g0 => simp [spawnCount, htail]
    | removeNode g0 => simp [spawnCount, htail]
    | setSocket sock => simp [spawnCount, htail]

/-- At most one step of any trace spawns a dispatcher for a given guild. -/
theorem spawnCount_le_one (ops : List Op) :
    ∀ (st : SysState) (g : Nat), spawnCount st ops g ≤ 1 := by
  induction ops with
  | nil =>
    intro st g
    exact Nat.zero_le 1
  | cons op rest ih =>
    intro st g
    cases op with
    | enqueue lk p =>
      by_cases hc : p.guild_id = g ∧ (p.queue lk st.client).spawned = true
      · have hl1 : (st.step (.enqueue lk p)).client.loops g = true := by
          have hstep : (st.step (.enqueue lk p)).client = (p.queue lk st.client).state := by
            simp [SysState.step, hc.2]
          rw [hstep, ← hc.1]
          exact (queue_spawn_facts p lk st.client hc.2).2.1
        have h0 := spawnCount_zero_of_loops rest (st.step (.enqueue lk p)) g hl1
        simp [spawnCount, hc, h0]
      · have h1 := ih (st.step (.enqueue lk p)) g
        simpa [spawnCount, hc] using h1
    | skipOp lk g0 =>
      simpa [spawnCount] using ih (st.step (.skipOp lk g0)) g
    | destroyOp g0 =>
      simpa [spawnCount] using ih (st.step (.destroyOp g0)) g
    | tick lk2 sendOk g0 =>
      simpa [spawnCount] using ih (st.step (.tick lk2 sendOk g0)) g
    | createSession ci =>
      simpa [spawnCount] using ih (st.step (.createSession ci)) g
    | createSessionSongbird ci =>
      simpa [spawnCount] using ih (st.step (.createSessionSongbird ci)) g
    | trackEnd g0 =>
      simpa [spawnCount] using ih (st.step (.trackEnd g0)) g
    | removeNode g0 =>
      simpa [spawnCount] using ih (st.step (.removeNode g0)) g
    | setSocket sock =>
      simpa [spawnCount] using ih (st.step (.setSocket sock)) g

/-- C9 as stated is false: after `cexTrace` (session, spawning enqueue, one
contended wake), guild 1's Node exists with `is_on_loops = true` but no
dispatcher task is alive — the contended `try_get_mut` at
`src/builders.rs` line 249 broke the loop while the flag persisted, and no
later enqueue can respawn it (the guild stays in the loop set). -/
theorem contended_tick_kills_dispatcher :
    ((SysState.run cexTrace).client.nodes 1).map Node.is_on_loops = some true ∧
    (SysState.run cexTrace).alive 1 = 0 := by
  decide

/-- C9 amended: after any trace of atomic core operations from the initial
state, AT MOST one dispatcher task is alive per guild (never two); a Node
whose `is_on_loops` flag is set implies its guild is in the Active-Loop
Set; and at most one step of the whole trace spawns a dispatcher for a
given guild — the check-and-spawn sequence, which runs under the single
client mutex and is therefore one atomic step here, can fire at most once
however many concurrent enqueues are interleaved.  The original "exactly
one" does not hold: a contended wake terminates the dispatcher while the
flag persists (see the counterexample). -/
theorem one_dispatcher_per_guild (ops : List Op) (g : Nat) :
    (SysState.run ops).alive g ≤ 1 ∧
    (∀ node, (SysState.run ops).client.nodes g = some node →
      node.is_on_loops = true → (SysState.run ops).client.loops g = true) ∧
    spawnCount SysState.init ops g ≤ 1 := by
  have hinv := sysInv_run ops
  refine ⟨(hinv g).1, ?_, spawnCount_le_one ops SysState.init g⟩
  intro node hn hfl
  cases hlg : (SysState.run ops).client.loops g with
  | true => rfl
  | false =>
    have := ((hinv g).2 hlg).2 node hn
    rw [hfl] at this
    cases this
